import Mathlib

/-!
Verification of the authentication/token-lifecycle logic of the
microsoft-mcp-server repository.

The repository ships two implementations of the credential coordinator:

* a closure-based token manager for the app-only (client-credentials) flow
  (`src/auth/token-manager.ts`, used by `src/index.ts`), modelled in
  namespace `TokenManager`;
* a class-based coordinator (`src/auth/auth-manager.ts`,
  `src/auth/client-credentials.ts`, `src/auth/device-code.ts`), modelled in
  namespace `Manager`.

Wall-clock instants and expiry stamps are integer milliseconds
(`Date.now()` / `Date.getTime()`).  External effects (the HTTP token
endpoint, the MSAL library calls) are passed in as explicit outcome values,
so every function below is a pure step function of the state, the clock and
those outcomes.  Each definition is a direct translation of the cited
source function.
-/

namespace TokenManager

/-- An app-only session record (`AppOnlySession` in `src/auth/types.ts`);
`expiresAt` is the `Date` in milliseconds.  The constant `mode` field is
omitted. -/
structure AppOnlySession where
  accessToken : String
  expiresAt : Int
  deriving Repr, DecidableEq

/-- Success body of the token endpoint (`TokenResponse` in
`src/auth/types.ts`).  `token_type` plays no role in the code. -/
structure TokenResponse where
  access_token : String
  expires_in : Int
  deriving Repr, DecidableEq

/-- Observable outcome of the error path `JSON.parse(errorText)` followed by
reading `.error_description` / `.error` in `fetchToken`
(`src/auth/token-manager.ts`): either both field reads complete (each one
present or absent), or the parse/read throws (non-JSON body, or a JSON value
such as `null` whose property access throws) and control reaches the
`catch`. -/
inductive ErrorBodyParse where
  | fields (error_description : Option String) (error : Option String)
  | unparseable
  deriving Repr, DecidableEq

/-- A response of the token endpooint as observed by `fetchToken`:
HTTP status, raw body text, and the parse outcomes of the two paths
(`errorBody` is consulted on non-2xx, `tokenBody` on 2xx). -/
structure HttpResponse where
  status : Nat
  bodyText : String
  errorBody : ErrorBodyParse
  tokenBody : TokenResponse
  deriving Repr, DecidableEq

/-- `response.ok` of the fetch API: status in the range 200..299. -/
def responseOk (r : HttpResponse) : Bool :=
  200 ≤ r.status && r.status < 300

/-- The error-message computation of `fetchToken`'s non-ok branch
(`src/auth/token-manager.ts`): `errorJson.error_description ??
errorJson.error ?? fallback` when the parse completes, and
`Token request failed: status - body` when it throws. -/
def errorMessage (status : Nat) (bodyText : String) : ErrorBodyParse → String
  | .fields ed e => ((ed.orElse fun _ => e).getD
      ("Token request failed: " ++ toString status))
  | .unparseable => "Token request failed: " ++ toString status ++ " - " ++ bodyText

/-- `fetchToken` (`src/auth/token-manager.ts`): on 2xx builds a session with
`expiresAt = Date.now() + expires_in * 1000`; on non-2xx throws the message
computed by `errorMessage`. -/
def fetchToken (now : Int) (r : HttpResponse) : Except String AppOnlySession :=
  if responseOk r then
    .ok { accessToken := r.tokenBody.access_token
          expiresAt := now + r.tokenBody.expires_in * 1000 }
  else
    .error (errorMessage r.status r.bodyText r.errorBody)

/-- `TOKEN_REFRESH_BUFFER_MS = 5 * 60 * 1000` (5 minutes before expiry). -/
def TOKEN_REFRESH_BUFFER_MS : Int := 5 * 60 * 1000

/-- `isTokenValid` (`src/auth/token-manager.ts`):
`Date.now() < session.expiresAt.getTime() - TOKEN_REFRESH_BUFFER_MS`. -/
def isTokenValid (now : Int) (s : AppOnlySession) : Bool :=
  now < s.expiresAt - TOKEN_REFRESH_BUFFER_MS

/-- The combined cache guard `state.session && isTokenValid(state.session)`
of `getSession`: false on an absent record, else `isTokenValid`. -/
def cacheValid (st : Option AppOnlySession) (now : Int) : Bool :=
  match st with
  | none => false
  | some s => isTokenValid now s

/-- Result of one `getSession` call: the returned session (or the thrown
message), the cache slot afterwards, and how many times `fetchToken` (one
network call each) ran. -/
structure SessionStepResult where
  result : Except String AppOnlySession
  state : Option AppOnlySession
  fetches : Nat
  deriving Repr

/-- `getSession` (`src/auth/token-manager.ts`): return the cached session if
present and valid, otherwise fetch, store on success (a throw leaves the
slot unchanged), and return the fresh session. -/
def getSessionStep (st : Option AppOnlySession) (now : Int) (r : HttpResponse) :
    SessionStepResult :=
  match st with
  | some s =>
      if isTokenValid now s then ⟨.ok s, some s, 0⟩
      else
        match fetchToken now r with
        | .ok s2 => ⟨.ok s2, some s2, 1⟩
        | .error e => ⟨.error e, some s, 1⟩
  | none =>
      match fetchToken now r with
      | .ok s2 => ⟨.ok s2, some s2, 1⟩
      | .error e => ⟨.error e, none, 1⟩

/-- Two successive `getToken` calls starting from the empty cache
(`state.session = null` at `createTokenManager`), with no clock advance:
both results projected to the token string, plus the total number of
fetches.  `r1`, `r2` are the endpoint's responses to the first and second
fetch, should one happen. -/
def getTokenTwice (now : Int) (r1 r2 : HttpResponse) :
    Except String String × Except String String × Nat :=
  let s1 := getSessionStep none now r1
  let s2 := getSessionStep s1.state now r2
  (s1.result.map (·.accessToken), s2.result.map (·.accessToken),
    s1.fetches + s2.fetches)

/-- The status payload built by the `get_auth_status` tool in the
client-credentials branch (`src/index.ts`).  `expiresAt` keeps the
millisecond stamp whose ISO rendering the code returns. -/
structure StatusPayload where
  authenticated : Bool
  mode : String
  message : String
  expiresAt : Option Int
  deriving Repr, DecidableEq

/-- The client-credentials branch of the `get_auth_status` tool
(`src/index.ts`): `tokenManager.getSession()` inside `try/catch`; a success
renders an authenticated payload, a thrown error is caught and rendered as
`authenticated: false` with the message embedded. -/
def getAuthStatusTool (st : Option AppOnlySession) (now : Int) (r : HttpResponse) :
    StatusPayload × Option AppOnlySession :=
  let step := getSessionStep st now r
  match step.result with
  | .ok s =>
      ({ authenticated := true
         mode := "clientCredentials"
         message := "Authenticated via client credentials (app-only)"
         expiresAt := some s.expiresAt }, step.state)
  | .error e =>
      ({ authenticated := false
         mode := "clientCredentials"
         message := "Authentication failed: " ++ e
         expiresAt := none }, step.state)

/-- `AuthMode` of the functional codebase (`src/auth/types.ts`). -/
inductive AuthMode where
  | interactive
  | clientCredentials
  deriving Repr, DecidableEq

/-- `ServerConfig` of the functional codebase (`src/auth/types.ts`),
restricted to the fields `validateConfig` reads. -/
structure ServerConfig where
  clientId : String
  clientSecret : String
  tenantId : String
  authMode : AuthMode
  appScopes : List String
  deriving Repr, DecidableEq

/-- `validateConfig` (`src/index.ts`), run eagerly by `createConfig`:
rejects client-credentials mode with the wildcard tenant or with an empty
(falsy) secret. -/
def validateConfig (config : ServerConfig) : Except String Unit :=
  if config.authMode = AuthMode.clientCredentials then
    if config.tenantId = "common" then
      .error "Client credentials auth requires a specific tenant ID, not \"common\"."
    else if config.clientSecret = "" then
      .error "Client credentials auth requires AZURE_CLIENT_SECRET."
    else .ok ()
  else .ok ()

end TokenManager

namespace Manager

/-- `AuthMode` of the class-based codebase (`src/types.ts`). -/
inductive AuthMode where
  | device_code
  | client_credentials
  | client_token
  deriving Repr, DecidableEq

/-- `TokenInfo` (`src/types.ts`): `expiresOn` is the `Date` in
milliseconds; `scopes` and `account` are the optional fields. -/
structure TokenInfo where
  accessToken : String
  expiresOn : Int
  scopes : Option (List String) := none
  account : Option String := none
  deriving Repr, DecidableEq

/-- The cached-token guard shared by `ClientCredentialsAuth.getAccessToken`,
`DeviceCodeAuth.getAccessToken` and the `client_token` branch of
`AuthManager.getTokenInfo`: `record && record.expiresOn > new Date()` —
a raw expiry comparison, with no refresh buffer. -/
def cachedTokenUsable (cached : Option TokenInfo) (now : Int) : Bool :=
  match cached with
  | none => false
  | some t => now < t.expiresOn

/-- An MSAL `AuthenticationResult` as read by this codebase: access token,
optional expiry, granted scopes, optional account username. -/
structure MsalResult where
  accessToken : String
  expiresOn : Option Int
  scopes : List String
  account : Option String
  deriving Repr, DecidableEq

/-- Outcome of an MSAL acquisition call: a thrown error (its message), or a
possibly-null `AuthenticationResult`. -/
abbrev MsalOutcome : Type := Except String (Option MsalResult)

/-- The record `ClientCredentialsAuth.getAccessToken` stores on success
(`src/auth/client-credentials.ts`): expiry defaults to now + 3600 s; no
account field is set. -/
def ccStoreToken (now : Int) (r : MsalResult) : TokenInfo :=
  { accessToken := r.accessToken
    expiresOn := r.expiresOn.getD (now + 3600 * 1000)
    scopes := some r.scopes
    account := none }

/-- `ClientCredentialsAuth.getAccessToken`
(`src/auth/client-credentials.ts`):
returns the cached record while `expiresOn > now`; otherwise invokes
`acquireTokenByClientCredential` (outcome `acquire`), returning `null` both
on a null result and on a thrown error (the `catch` only logs).  Result:
(returned record, cache afterwards, acquisition calls made). -/
def ccGetAccessToken (cached : Option TokenInfo) (now : Int)
    (acquire : MsalOutcome) :
    Option TokenInfo × Option TokenInfo × Nat :=
  if cachedTokenUsable cached now then (cached, cached, 0)
  else
    match acquire with
    | .error _ => (none, cached, 1)
    | .ok none => (none, cached, 1)
    | .ok (some r) =>
        let t := ccStoreToken now r
        (some t, some t, 1)

/-- `DeviceCodeAuth.toTokenInfo` (`src/auth/device-code.ts`): expiry
defaults to now + 3600 s; `account` is the result's account username. -/
def toTokenInfo (now : Int) (r : MsalResult) : TokenInfo :=
  { accessToken := r.accessToken
    expiresOn := r.expiresOn.getD (now + 3600 * 1000)
    scopes := some r.scopes
    account := r.account }

/-- State of a `DeviceCodeAuth` instance: the in-memory cached record plus
the account references stored in the MSAL token cache
(`pca.getTokenCache().getAllAccounts()`). -/
structure DeviceCodeState where
  cachedToken : Option TokenInfo
  accounts : List String
  deriving Repr, DecidableEq

/-- `DeviceCodeAuth.getAccessToken` (`src/auth/device-code.ts`): cached
record while unexpired; else, when at least one account is stored, try
`acquireTokenSilent` (outcome `silent`) — a thrown error is swallowed by
the empty `catch` and a null result falls through — and return `null` in
every non-success case.  Result: (returned record, state afterwards, silent
acquisition calls made). -/
def dcGetAccessToken (st : DeviceCodeState) (now : Int) (silent : MsalOutcome) :
    Option TokenInfo × DeviceCodeState × Nat :=
  if cachedTokenUsable st.cachedToken now then (st.cachedToken, st, 0)
  else if st.accounts.isEmpty then (none, st, 0)
  else
    match silent with
    | .error _ => (none, st, 1)
    | .ok none => (none, st, 1)
    | .ok (some r) =>
        let t := toTokenInfo now r
        (some t, { st with cachedToken := some t }, 1)

/-- `DeviceCodeAuth.initiateDeviceCodeFlow` (`src/auth/device-code.ts`):
runs `acquireTokenByDeviceCode` (outcome `acquire`) with no `catch`, so a
thrown error propagates; a null result throws
`Device code authentication failed`; a result is cached and returned. -/
def initiateDeviceCodeFlow (st : DeviceCodeState) (now : Int)
    (acquire : MsalOutcome) : Except String (TokenInfo × DeviceCodeState) :=
  match acquire with
  | .error e => .error e
  | .ok none => .error "Device code authentication failed"
  | .ok (some r) =>
      let t := toTokenInfo now r
      .ok (t, { st with cachedToken := some t })

/-- `DeviceCodeAuth.signOut` (`src/auth/device-code.ts`): removes every
account from the MSAL token cache and clears the in-memory record. -/
def deviceSignOut (_st : DeviceCodeState) : DeviceCodeState :=
  { cachedToken := none, accounts := [] }

/-- `p` occurs as a contiguous run inside `l`. -/
def hasInfix (p : List Char) : List Char → Bool
  | [] => p.isEmpty
  | l@(_ :: rest) => p.isPrefixOf l || hasInfix p rest

/-- JS substring test `s.includes(sub)`. -/
def jsIncludes (s sub : String) : Bool :=
  hasInfix sub.data s.data

/-- The scope normalization in the `DeviceCodeAuth` constructor
(`src/auth/device-code.ts`):
`scopes.map(s => s.includes("://") ? s : "https://graph.microsoft.com/" + s)`. -/
def normalizeScope (s : String) : String :=
  if jsIncludes s "://" then s else "https://graph.microsoft.com/" ++ s

/-- Element-wise normalization of the configured scope list. -/
def normalizeScopes (scopes : List String) : List String :=
  scopes.map normalizeScope

/-- JS truthiness of an optional string field: absent and `""` are falsy. -/
def jsTruthy : Option String → Bool
  | none => false
  | some s => !(s == "")

/-- `ServerConfig` of the class-based codebase (`src/types.ts`), restricted
to the fields the auth classes read; `clientSecret` is the optional field. -/
structure ServerConfig where
  clientId : String
  tenantId : String
  clientSecret : Option String
  authMode : AuthMode
  scopes : List String
  deriving Repr, DecidableEq

/-- State of an `AuthManager` (`src/auth/auth-manager.ts`): the immutable
config, the current mode, the manual-token slot, and the lazily created
strategy instances (`some` when constructed; the `ClientCredentialsAuth`
instance is just its cache slot). -/
structure AuthManagerState where
  config : ServerConfig
  currentMode : AuthMode
  manualToken : Option TokenInfo
  deviceCodeAuth : Option DeviceCodeState
  clientCredentialsAuth : Option (Option TokenInfo)
  deriving Repr, DecidableEq

/-- The `AuthManager` constructor (`src/auth/auth-manager.ts`): never
throws; creates the device-code strategy for `device_code` mode, and the
client-credentials strategy only when the mode is `client_credentials` AND
the secret is truthy (otherwise it is silently skipped).  A fresh strategy
starts with an empty cache and an empty MSAL account store.  The result
type is `Except` to record that construction has no failure path. -/
def mkAuthManager (config : ServerConfig) : Except String AuthManagerState :=
  .ok
    { config := config
      currentMode := config.authMode
      manualToken := none
      deviceCodeAuth :=
        if config.authMode = AuthMode.device_code then some ⟨none, []⟩ else none
      clientCredentialsAuth :=
        if config.authMode = AuthMode.client_credentials ∧
            jsTruthy config.clientSecret = true
        then some none else none }

/-- The external acquisition outcomes a single `getTokenInfo` call can
consume: the client-credentials acquisition and the device-code silent
acquisition. -/
structure AcquireOracle where
  ccAcquire : MsalOutcome
  dcSilent : MsalOutcome

/-- Result of one `getTokenInfo` call: the returned record (or null), the
manager state afterwards, and the number of acquisition (network) calls
made. -/
structure TokenInfoResult where
  result : Option TokenInfo
  state : AuthManagerState
  acquisitions : Nat

/-- `AuthManager.getTokenInfo` (`src/auth/auth-manager.ts`):
`client_token` returns the manual record while unexpired, else null, with
no acquisition; `device_code` lazily constructs the strategy and delegates;
`client_credentials` lazily constructs the strategy, throwing
`Client secret required for client_credentials mode` when the secret is
falsy, and delegates. -/
def getTokenInfo (st : AuthManagerState) (now : Int) (o : AcquireOracle) :
    Except String TokenInfoResult :=
  match st.currentMode with
  | .client_token =>
      if cachedTokenUsable st.manualToken now then .ok ⟨st.manualToken, st, 0⟩
      else .ok ⟨none, st, 0⟩
  | .device_code =>
      let dc := st.deviceCodeAuth.getD ⟨none, []⟩
      let r := dcGetAccessToken dc now o.dcSilent
      .ok ⟨r.1, { st with deviceCodeAuth := some r.2.1 }, r.2.2⟩
  | .client_credentials =>
      match st.clientCredentialsAuth with
      | some cache =>
          let r := ccGetAccessToken cache now o.ccAcquire
          .ok ⟨r.1, { st with clientCredentialsAuth := some r.2.1 }, r.2.2⟩
      | none =>
          if jsTruthy st.config.clientSecret then
            let r := ccGetAccessToken none now o.ccAcquire
            .ok ⟨r.1, { st with clientCredentialsAuth := some r.2.1 }, r.2.2⟩
          else .error "Client secret required for client_credentials mode"

/-- `AuthManager.getAccessToken` (`src/auth/auth-manager.ts`):
`tokenInfo?.accessToken ?? null`. -/
def getAccessToken (st : AuthManagerState) (now : Int) (o : AcquireOracle) :
    Except String (Option String) :=
  (getTokenInfo st now o).map fun r => r.result.map (·.accessToken)

/-- `AuthStatus` (`src/types.ts`): note it has exactly these fields — there
is no message field.  `expiresOn` keeps the millisecond stamp whose ISO
rendering the code returns. -/
structure AuthStatus where
  authenticated : Bool
  mode : AuthMode
  expiresOn : Option Int
  scopes : Option (List String)
  account : Option String
  deriving Repr, DecidableEq

/-- `AuthManager.getAuthStatus` (`src/auth/auth-manager.ts`): calls
`getTokenInfo` with no `try/catch` (so its throw propagates) and renders
the optional record. -/
def getAuthStatus (st : AuthManagerState) (now : Int) (o : AcquireOracle) :
    Except String (AuthStatus × AuthManagerState) :=
  (getTokenInfo st now o).map fun r =>
    ({ authenticated := r.result.isSome
       mode := st.currentMode
       expiresOn := r.result.map (·.expiresOn)
       scopes := r.result.bind (·.scopes)
       account := r.result.bind (·.account) }, r.state)

/-- `AuthManager.setAccessToken` (`src/auth/auth-manager.ts`):
unconditionally switches to `client_token` mode and installs the record,
defaulting the expiry to now + 3600 s. -/
def setAccessToken (st : AuthManagerState) (now : Int) (token : String)
    (expiresOn : Option Int) : AuthManagerState :=
  { st with
    currentMode := AuthMode.client_token
    manualToken := some
      { accessToken := token
        expiresOn := expiresOn.getD (now + 3600 * 1000)
        scopes := none
        account := none } }

/-- `AuthManager.signOut` (`src/auth/auth-manager.ts`): signs out the
device-code strategy (when constructed), clears the client-credentials
cache (when constructed), and clears the manual-token slot; `currentMode`
is not touched. -/
def signOut (st : AuthManagerState) : AuthManagerState :=
  { st with
    deviceCodeAuth := st.deviceCodeAuth.map deviceSignOut
    clientCredentialsAuth := st.clientCredentialsAuth.map fun _ => none
    manualToken := none }

/-- `AuthManager.getMode` (`src/auth/auth-manager.ts`). -/
def getMode (st : AuthManagerState) : AuthMode :=
  st.currentMode

end Manager

/-! ### Concrete inputs used by witnesses and counterexamples -/

/-- A 2xx token-endpoint response carrying `access_token = tok` and
`expires_in = expiresIn` seconds. -/
def okResp (tok : String) (expiresIn : Int) : TokenManager.HttpResponse :=
  { status := 200
    bodyText := ""
    errorBody := .fields none none
    tokenBody := { access_token := tok, expires_in := expiresIn } }

/-- A 500 response with the plain-text body `Internal Server Error`. -/
def resp500 : TokenManager.HttpResponse :=
  { status := 500
    bodyText := "Internal Server Error"
    errorBody := .unparseable
    tokenBody := { access_token := "", expires_in := 0 } }

/-- A 401 response with the structured body
`{"error":"invalid_client","error_description":"Invalid client credentials"}`. -/
def resp401 : TokenManager.HttpResponse :=
  { status := 401
    bodyText := "\x7b\"error\":\"invalid_client\",\"error_description\":\"Invalid client credentials\"\x7d"
    errorBody := .fields (some "Invalid client credentials") (some "invalid_client")
    tokenBody := { access_token := "", expires_in := 0 } }

/-- The session produced by a fetch at time 0 answered with
`okResp "a" 3600`. -/
def sessionA : TokenManager.AppOnlySession :=
  { accessToken := "a", expiresAt := 3600000 }

/-- A functional-codebase config selecting client-credentials mode with the
wildcard tenant. -/
def fnBadCfg : TokenManager.ServerConfig :=
  { clientId := "app"
    clientSecret := "s3cret"
    tenantId := "common"
    authMode := .clientCredentials
    appScopes := ["https://graph.microsoft.com/.default"] }

/-- A class-codebase config selecting client-credentials mode with no
secret. -/
def badCfg : Manager.ServerConfig :=
  { clientId := "app"
    tenantId := "tenant"
    clientSecret := none
    authMode := .client_credentials
    scopes := [] }

/-- The manager state the constructor builds from `badCfg`. -/
def badCfgState : Manager.AuthManagerState :=
  { config := badCfg
    currentMode := .client_credentials
    manualToken := none
    deviceCodeAuth := none
    clientCredentialsAuth := none }

/-- An oracle whose acquisitions return null results. -/
def idleOracle : Manager.AcquireOracle :=
  { ccAcquire := .ok none, dcSilent := .ok none }

/-- A well-formed class-codebase config. -/
def sampleConfig : Manager.ServerConfig :=
  { clientId := "app"
    tenantId := "tenant"
    clientSecret := some "s3cret"
    authMode := .device_code
    scopes := ["User.Read"] }

/-- A manager state in device-code mode with a fresh strategy. -/
def sampleState : Manager.AuthManagerState :=
  { config := sampleConfig
    currentMode := .device_code
    manualToken := none
    deviceCodeAuth := some { cachedToken := none, accounts := [] }
    clientCredentialsAuth := none }

/-- A manager state in manual-token mode holding an expired record. -/
def expiredTokenState : Manager.AuthManagerState :=
  { config := sampleConfig
    currentMode := .client_token
    manualToken := some { accessToken := "old", expiresOn := -1000 }
    deviceCodeAuth := none
    clientCredentialsAuth := none }

/-- A manager state in manual-token mode holding an unexpired record. -/
def manualState : Manager.AuthManagerState :=
  { config := sampleConfig
    currentMode := .client_token
    manualToken := some { accessToken := "X", expiresOn := 3600000 }
    deviceCodeAuth := none
    clientCredentialsAuth := none }

/-- A manager state in client-credentials mode with a constructed strategy
and an empty cache. -/
def ccState : Manager.AuthManagerState :=
  { config :=
      { clientId := "app"
        tenantId := "tenant"
        clientSecret := some "s3cret"
        authMode := .client_credentials
        scopes := [] }
    currentMode := .client_credentials
    manualToken := none
    deviceCodeAuth := none
    clientCredentialsAuth := some none }

/-- `ccState` after a successful acquisition populated the cache. -/
def ccStateCached : Manager.AuthManagerState :=
  { ccState with
    clientCredentialsAuth := some (some { accessToken := "old", expiresOn := 10000 }) }

/-- A successful MSAL acquisition result. -/
def msalOk : Manager.MsalResult :=
  { accessToken := "fresh"
    expiresOn := some 7200000
    scopes := ["https://graph.microsoft.com/.default"]
    account := none }

/-- A device-code strategy state with no cached record and one stored
account reference. -/
def dcStateW : Manager.DeviceCodeState :=
  { cachedToken := none, accounts := ["user@contoso.com"] }

/-! ### Claims -/

/-- Claim C1, as stated, is false: not every cached-token validity check
performed before reusing a stored record is the buffered check
`now < expiry - 300000`.  The guard of
`ClientCredentialsAuth.getAccessToken` (shared by `DeviceCodeAuth` and the
manual-token branch) reuses a record expiring 100 s from now, which the
buffered formula rejects. -/
theorem C1_counterexample :
    ¬ (Manager.cachedTokenUsable (some { accessToken := "t", expiresOn := 100000 }) 0 = true ↔
        (0 : Int) < 100000 - 300000) := by
  decide

/-- Claim C1 amended: the token-manager's validity check is false on an
absent record and otherwise exactly `now < expiry - 300000`; the
class-based strategies' cached-token guards instead use the raw comparison
`now < expiry` with no buffer.  A record fetched with `expires_in ≤ 0` is
immediately invalid under the buffered check and a subsequent `getSession`
call fetches again instead of reusing it. -/
theorem C1_amended (now : Int) (r : TokenManager.HttpResponse)
    (hok : TokenManager.responseOk r = true)
    (hexp : r.tokenBody.expires_in ≤ 0) :
    TokenManager.cacheValid none now = false ∧
    (∀ s, TokenManager.cacheValid (some s) now =
        decide (now < s.expiresAt - TokenManager.TOKEN_REFRESH_BUFFER_MS)) ∧
    (∀ t, Manager.cachedTokenUsable (some t) now = decide (now < t.expiresOn)) ∧
    ∃ s, TokenManager.fetchToken now r = .ok s ∧
      TokenManager.cacheValid (some s) now = false ∧
      (TokenManager.getSessionStep (some s) now r).fetches = 1 := by
  refine ⟨rfl, fun s => rfl, fun t => rfl, ?_⟩
  refine ⟨{ accessToken := r.tokenBody.access_token,
            expiresAt := now + r.tokenBody.expires_in * 1000 }, ?_, ?_, ?_⟩
  · simp [TokenManager.fetchToken, hok]
  · have h1000 : r.tokenBody.expires_in * 1000 ≤ 0 := by
      have := mul_le_mul_of_nonneg_right hexp (by norm_num : (0:Int) ≤ 1000)
      simpa using this
    simp only [TokenManager.cacheValid, TokenManager.isTokenValid,
      TokenManager.TOKEN_REFRESH_BUFFER_MS, decide_eq_false_iff_not, not_lt]
    omega
  · have hval : TokenManager.isTokenValid now
        { accessToken := r.tokenBody.access_token,
          expiresAt := now + r.tokenBody.expires_in * 1000 } = false := by
      have h1000 : r.tokenBody.expires_in * 1000 ≤ 0 := by
        have := mul_le_mul_of_nonneg_right hexp (by norm_num : (0:Int) ≤ 1000)
        simpa using this
      simp only [TokenManager.isTokenValid, TokenManager.TOKEN_REFRESH_BUFFER_MS,
        decide_eq_false_iff_not, not_lt]
      omega
    have hfetch : TokenManager.fetchToken now r =
        .ok { accessToken := r.tokenBody.access_token,
              expiresAt := now + r.tokenBody.expires_in * 1000 } := by
      simp [TokenManager.fetchToken, hok]
    simp [TokenManager.getSessionStep, hval, hfetch]

/-- Claim C1 amended, instantiated: a 2xx response with `expires_in = 0` at
time 0 yields a session that the buffered check rejects and that the next
`getSession` call refetches. -/
theorem C1_witness :
    TokenManager.responseOk (okResp "z" 0) = true ∧
    (∃ s, TokenManager.fetchToken 0 (okResp "z" 0) = .ok s ∧
      TokenManager.cacheValid (some s) 0 = false ∧
      (TokenManager.getSessionStep (some s) 0 (okResp "z" 0)).fetches = 1) :=
  ⟨rfl, (C1_amended 0 (okResp "z" 0) rfl (by decide)).2.2.2⟩

/-- Claim C2: on a non-2xx token-endpoint response, the thrown message is
the parsed `error_description` when present, else the parsed `error` when
present, and when the body parse throws it embeds both the numeric status
code and the raw body text verbatim. -/
theorem C2_holds (now : Int) (r : TokenManager.HttpResponse)
    (hfail : TokenManager.responseOk r = false) :
    (∀ d e, r.errorBody = .fields (some d) e →
        TokenManager.fetchToken now r = .error d) ∧
    (∀ e, r.errorBody = .fields none (some e) →
        TokenManager.fetchToken now r = .error e) ∧
    (r.errorBody = .unparseable →
        ∃ a b, TokenManager.fetchToken now r =
          .error (a ++ toString r.status ++ b ++ r.bodyText)) := by
  refine ⟨?_, ?_, ?_⟩
  · intro d e h
    simp [TokenManager.fetchToken, hfail, TokenManager.errorMessage, h]
  · intro e h
    simp [TokenManager.fetchToken, hfail, TokenManager.errorMessage, h]
  · intro h
    refine ⟨"Token request failed: ", " - ", ?_⟩
    simp [TokenManager.fetchToken, hfail, TokenManager.errorMessage, h]

/-- Claim C2, instantiated at the spec's two examples: the structured 401
body fails with exactly `Invalid client credentials`, and the plain-text
500 body fails with a message embedding `500` and
`Internal Server Error`. -/
theorem C2_witness :
    TokenManager.responseOk resp401 = false ∧
    TokenManager.fetchToken 0 resp401 = .error "Invalid client credentials" ∧
    (∃ a b, TokenManager.fetchToken 0 resp500 =
      .error (a ++ toString resp500.status ++ b ++ resp500.bodyText)) :=
  ⟨rfl, (C2_holds 0 resp401 rfl).1 "Invalid client credentials" (some "invalid_client") rfl,
    (C2_holds 0 resp500 rfl).2.2 rfl⟩

/-- Claim C3, as stated, is false: from the empty cache at time 0, a first
`getToken` answered with `expires_in = 60` seconds succeeds with token `a`,
yet the stored record is already inside the 5-minute refresh buffer, so the
immediately following call performs a second acquisition and returns the
second response's token `b` — two network calls and different tokens. -/
theorem C3_counterexample :
    (TokenManager.getTokenTwice 0 (okResp "a" 60) (okResp "b" 3600)).1 = .ok "a" ∧
    (TokenManager.getTokenTwice 0 (okResp "a" 60) (okResp "b" 3600)).2.1 = .ok "b" ∧
    (TokenManager.getTokenTwice 0 (okResp "a" 60) (okResp "b" 3600)).2.2 = 2 :=
  ⟨rfl, rfl, rfl⟩

/-- Claim C3 amended: when the first `getToken` call from the empty cache
succeeds AND the fetched record is still outside the 5-minute refresh
buffer at the (unadvanced) clock, the second call is answered from the
cache: exactly one acquisition happens and both calls return the identical
token string. -/
theorem C3_amended (now : Int) (r1 r2 : TokenManager.HttpResponse)
    (s1 : TokenManager.AppOnlySession)
    (h1 : TokenManager.fetchToken now r1 = .ok s1)
    (hvalid : TokenManager.isTokenValid now s1 = true) :
    (TokenManager.getTokenTwice now r1 r2).1 = .ok s1.accessToken ∧
    (TokenManager.getTokenTwice now r1 r2).2.1 = .ok s1.accessToken ∧
    (TokenManager.getTokenTwice now r1 r2).2.2 = 1 := by
  simp [TokenManager.getTokenTwice, TokenManager.getSessionStep, h1, hvalid,
    Except.map]

/-- Claim C3 amended, instantiated: a first acquisition with
`expires_in = 3600` seconds at time 0 is reused by the second call — one
fetch, identical tokens. -/
theorem C3_witness :
    TokenManager.fetchToken 0 (okResp "a" 3600) = .ok sessionA ∧
    TokenManager.isTokenValid 0 sessionA = true ∧
    ((TokenManager.getTokenTwice 0 (okResp "a" 3600) (okResp "b" 3600)).1 =
        .ok sessionA.accessToken ∧
      (TokenManager.getTokenTwice 0 (okResp "a" 3600) (okResp "b" 3600)).2.1 =
        .ok sessionA.accessToken ∧
      (TokenManager.getTokenTwice 0 (okResp "a" 3600) (okResp "b" 3600)).2.2 = 1) :=
  ⟨rfl, rfl, C3_amended 0 (okResp "a" 3600) (okResp "b" 3600) sessionA rfl rfl⟩

/-- Claim C4, as stated, is false: constructing the class-based coordinator
with client-credentials mode and no secret succeeds (the constructor has no
failure path), and the `ConfigurationError` is deferred to the first
`getTokenInfo` use, which throws it. -/
theorem C4_counterexample :
    Manager.mkAuthManager badCfg = .ok badCfgState ∧
    Manager.getTokenInfo badCfgState 0 idleOracle =
      .error "Client secret required for client_credentials mode" :=
  ⟨rfl, rfl⟩

/-- Claim C4 amended: the eager check lives in the functional entry point's
`validateConfig`, which rejects client-credentials mode with the wildcard
tenant or a missing secret before any strategy exists; the class-based
`AuthManager` constructor, by contrast, never fails, and with a falsy
secret in client-credentials mode the error is raised at the first
`getTokenInfo`/`getToken` use. -/
theorem C4_amended :
    (∀ cfg : TokenManager.ServerConfig,
        cfg.authMode = TokenManager.AuthMode.clientCredentials →
        cfg.tenantId = "common" ∨ cfg.clientSecret = "" →
        ∃ e, TokenManager.validateConfig cfg = .error e) ∧
    (∀ cfg : Manager.ServerConfig, ∃ st, Manager.mkAuthManager cfg = .ok st) ∧
    (∀ (cfg : Manager.ServerConfig) (st : Manager.AuthManagerState)
        (now : Int) (o : Manager.AcquireOracle),
      cfg.authMode = Manager.AuthMode.client_credentials →
      Manager.jsTruthy cfg.clientSecret = false →
      Manager.mkAuthManager cfg = .ok st →
      Manager.getTokenInfo st now o =
        .error "Client secret required for client_credentials mode") := by
  refine ⟨?_, ?_, ?_⟩
  · intro cfg hmode hor
    rcases hor with ht | hs
    · exact ⟨"Client credentials auth requires a specific tenant ID, not \"common\".",
        by simp [TokenManager.validateConfig, hmode, ht]⟩
    · by_cases ht : cfg.tenantId = "common"
      · exact ⟨"Client credentials auth requires a specific tenant ID, not \"common\".",
          by simp [TokenManager.validateConfig, hmode, ht]⟩
      · exact ⟨"Client credentials auth requires AZURE_CLIENT_SECRET.",
          by simp [TokenManager.validateConfig, hmode, ht, hs]⟩
  · intro cfg
    exact ⟨_, rfl⟩
  · intro cfg st now o hmode hsecret hmk
    simp only [Manager.mkAuthManager, Except.ok.injEq] at hmk
    subst hmk
    simp [Manager.getTokenInfo, hmode, hsecret]

/-- Claim C4 amended, instantiated: `validateConfig` rejects the wildcard
tenant eagerly, while the class-based manager constructed from a
secret-less client-credentials config throws only at the first token
use. -/
theorem C4_witness :
    (∃ e, TokenManager.validateConfig fnBadCfg = .error e) ∧
    Manager.getTokenInfo badCfgState 0 idleOracle =
      .error "Client secret required for client_credentials mode" :=
  ⟨C4_amended.1 fnBadCfg rfl (Or.inl rfl),
    C4_amended.2.2 badCfg badCfgState 0 idleOracle rfl rfl rfl⟩

/-- Claim C5: from any prior manager state and mode, `setAccessToken X`
switches the current mode to `client_token` and installs the record (expiry
defaulting to now + 3600 s), so that while the record is unexpired a
following `getAccessToken` returns `X` and `getAuthStatus` reports the
manual mode, authenticated. -/
theorem C5_holds (st : Manager.AuthManagerState) (now now2 : Int)
    (tok : String) (expiry : Option Int) (o : Manager.AcquireOracle)
    (h : now2 < expiry.getD (now + 3600 * 1000)) :
    (Manager.setAccessToken st now tok expiry).currentMode =
      Manager.AuthMode.client_token ∧
    (Manager.setAccessToken st now tok expiry).manualToken =
      some { accessToken := tok, expiresOn := expiry.getD (now + 3600 * 1000) } ∧
    Manager.getAccessToken (Manager.setAccessToken st now tok expiry) now2 o =
      .ok (some tok) ∧
    Manager.getAuthStatus (Manager.setAccessToken st now tok expiry) now2 o =
      .ok ({ authenticated := true
             mode := Manager.AuthMode.client_token
             expiresOn := some (expiry.getD (now + 3600 * 1000))
             scopes := none
             account := none }, Manager.setAccessToken st now tok expiry) := by
  have h2 : now2 < expiry.getD (now + 3600000) := by
    have : (3600 : Int) * 1000 = 3600000 := by norm_num
    rw [this] at h
    exact h
  refine ⟨rfl, rfl, ?_, ?_⟩
  · simp [Manager.getAccessToken, Manager.getTokenInfo, Manager.setAccessToken,
      Manager.cachedTokenUsable, h2, Except.map]
  · simp [Manager.getAuthStatus, Manager.getTokenInfo, Manager.setAccessToken,
      Manager.cachedTokenUsable, h2, Except.map]

/-- Claim C5, instantiated: starting in device-code mode, setting the
manual token `X` makes the mode `client_token` and `getAccessToken` return
`X` five milliseconds later. -/
theorem C5_witness :
    (5 : Int) < Option.getD none (0 + 3600 * 1000) ∧
    ((Manager.setAccessToken sampleState 0 "X" none).currentMode =
      Manager.AuthMode.client_token ∧
    Manager.getAccessToken (Manager.setAccessToken sampleState 0 "X" none) 5 idleOracle =
      .ok (some "X")) :=
  ⟨by decide,
    ⟨(C5_holds sampleState 0 5 "X" none idleOracle (by decide)).1,
      (C5_holds sampleState 0 5 "X" none idleOracle (by decide)).2.2.1⟩⟩

/-- Claim C6: in manual-token mode, when the stored record is expired (or
was never set) `getTokenInfo` returns null without attempting any
acquisition call and leaves the state unchanged; `getAccessToken` is
null. -/
theorem C6_holds (st : Manager.AuthManagerState) (now : Int)
    (o : Manager.AcquireOracle)
    (hmode : st.currentMode = Manager.AuthMode.client_token)
    (hexp : ∀ t, st.manualToken = some t → t.expiresOn ≤ now) :
    Manager.getTokenInfo st now o = .ok ⟨none, st, 0⟩ ∧
    Manager.getAccessToken st now o = .ok none := by
  have husable : Manager.cachedTokenUsable st.manualToken now = false := by
    cases hm : st.manualToken with
    | none => rfl
    | some t =>
        simp only [Manager.cachedTokenUsable, decide_eq_false_iff_not, not_lt]
        exact hexp t hm
  constructor
  · simp [Manager.getTokenInfo, hmode, husable]
  · simp [Manager.getAccessToken, Manager.getTokenInfo, hmode, husable, Except.map]

/-- Claim C6, instantiated: a manual record that expired 1 s before time 0
yields a null token and zero acquisition calls. -/
theorem C6_witness :
    expiredTokenState.currentMode = Manager.AuthMode.client_token ∧
    Manager.getTokenInfo expiredTokenState 0 idleOracle =
      .ok ⟨none, expiredTokenState, 0⟩ ∧
    Manager.getAccessToken expiredTokenState 0 idleOracle = .ok none :=
  ⟨rfl,
    (C6_holds expiredTokenState 0 idleOracle rfl
      (fun t h => by injection h with h2; subst h2; decide)).1,
    (C6_holds expiredTokenState 0 idleOracle rfl
      (fun t h => by injection h with h2; subst h2; decide)).2⟩

/-- Claim C7, as stated, is false for the class-based coordinator: on an
acquisition failure (`acquireTokenByClientCredential` throwing
`token endpoint unreachable`), `AuthManager.getAuthStatus` does return an
`authenticated: false` payload without throwing, but the payload — shown
here in full — has no message field at all, and is identical for a
different failure message, so the failure's message is surfaced nowhere. -/
theorem C7_counterexample :
    Manager.getAuthStatus ccState 0
        { ccAcquire := .error "token endpoint unreachable", dcSilent := .ok none } =
      .ok ({ authenticated := false
             mode := Manager.AuthMode.client_credentials
             expiresOn := none
             scopes := none
             account := none }, ccState) ∧
    Manager.getAuthStatus ccState 0
        { ccAcquire := .error "token endpoint unreachable", dcSilent := .ok none } =
      Manager.getAuthStatus ccState 0
        { ccAcquire := .error "a different failure", dcSilent := .ok none } :=
  ⟨rfl, rfl⟩

/-- Claim C7 amended: neither status path throws on an acquisition failure
and both report `authenticated: false`; the failure's message is surfaced
in the `message` field by the tool-layer `get_auth_status` over the token
manager, while the class-based `AuthManager.getAuthStatus` returns a
payload that carries no message. -/
theorem C7_amended (st : Option TokenManager.AppOnlySession) (now : Int)
    (r : TokenManager.HttpResponse) (e : String)
    (hfail : (TokenManager.getSessionStep st now r).result = .error e) :
    ((TokenManager.getAuthStatusTool st now r).1.authenticated = false ∧
      (TokenManager.getAuthStatusTool st now r).1.message =
        "Authentication failed: " ++ e) ∧
    (∀ (amSt : Manager.AuthManagerState) (now2 : Int) (msg : String)
        (cache : Option Manager.TokenInfo) (dcO : Manager.MsalOutcome),
      amSt.currentMode = Manager.AuthMode.client_credentials →
      amSt.clientCredentialsAuth = some cache →
      Manager.cachedTokenUsable cache now2 = false →
      Manager.getAuthStatus amSt now2 { ccAcquire := .error msg, dcSilent := dcO } =
        .ok ({ authenticated := false
               mode := Manager.AuthMode.client_credentials
               expiresOn := none
               scopes := none
               account := none },
          { amSt with clientCredentialsAuth := some cache })) := by
  constructor
  · constructor
    · simp [TokenManager.getAuthStatusTool, hfail]
    · simp [TokenManager.getAuthStatusTool, hfail]
  · intro amSt now2 msg cache dcO hmode hcc husable
    simp [Manager.getAuthStatus, Manager.getTokenInfo, hmode, hcc,
      Manager.ccGetAccessToken, husable, Except.map]

/-- Claim C7 amended, instantiated at the tool layer: a failing fetch (500,
plain-text body) renders `authenticated: false` with the failure message
embedded in the `message` field. -/
theorem C7_witness :
    (TokenManager.getAuthStatusTool none 0 resp500).1.authenticated = false ∧
    (TokenManager.getAuthStatusTool none 0 resp500).1.message =
      "Authentication failed: " ++ "Token request failed: 500 - Internal Server Error" :=
  (C7_amended none 0 resp500 "Token request failed: 500 - Internal Server Error" rfl).1

/-- Claim C8, as stated, is false in client-credentials mode: starting from
a coordinator whose client-credentials cache holds a token, `signOut` does
clear every slot and keep the mode, but the very next `getAuthStatus` finds
the cache empty, re-acquires with the client secret, succeeds, and reports
`authenticated: true` — not false. -/
theorem C8_counterexample :
    (Manager.signOut ccStateCached).currentMode =
      Manager.AuthMode.client_credentials ∧
    (Manager.signOut ccStateCached).clientCredentialsAuth = some none ∧
    ((Manager.getAuthStatus (Manager.signOut ccStateCached) 0
        { ccAcquire := .ok (some msalOk), dcSilent := .ok none }).map
      fun p => p.1.authenticated) = .ok true :=
  ⟨rfl, rfl, rfl⟩

/-- Claim C8 amended: `signOut` clears the manual-token slot, empties the
client-credentials cache, and removes every stored device-code account
reference along with the in-memory record, all without changing the current
mode; the subsequent `getStatus` reports `authenticated: false` in
manual-token mode and in device-code mode, and in client-credentials mode
only when the re-acquisition the status check triggers does not succeed. -/
theorem C8_amended (st : Manager.AuthManagerState) :
    (Manager.signOut st).currentMode = st.currentMode ∧
    (Manager.signOut st).manualToken = none ∧
    (∀ c, st.clientCredentialsAuth = some c →
        (Manager.signOut st).clientCredentialsAuth = some none) ∧
    (∀ d, st.deviceCodeAuth = some d →
        (Manager.signOut st).deviceCodeAuth =
          some { cachedToken := none, accounts := [] }) ∧
    (∀ (now : Int) (o : Manager.AcquireOracle),
      st.currentMode = Manager.AuthMode.client_token →
      ((Manager.getAuthStatus (Manager.signOut st) now o).map
          fun p => p.1.authenticated) = .ok false) ∧
    (∀ (now : Int) (o : Manager.AcquireOracle),
      st.currentMode = Manager.AuthMode.device_code →
      ((Manager.getAuthStatus (Manager.signOut st) now o).map
          fun p => p.1.authenticated) = .ok false) ∧
    (∀ (now : Int) (msg : String) (dcO : Manager.MsalOutcome)
        (c : Option Manager.TokenInfo),
      st.currentMode = Manager.AuthMode.client_credentials →
      st.clientCredentialsAuth = some c →
      ((Manager.getAuthStatus (Manager.signOut st) now
          { ccAcquire := .error msg, dcSilent := dcO }).map
        fun p => p.1.authenticated) = .ok false) := by
  refine ⟨rfl, rfl, ?_, ?_, ?_, ?_, ?_⟩
  · intro c h
    simp [Manager.signOut, h]
  · intro d h
    simp [Manager.signOut, h, Manager.deviceSignOut]
  · intro now o hmode
    simp [Manager.getAuthStatus, Manager.getTokenInfo, Manager.signOut, hmode,
      Manager.cachedTokenUsable, Except.map]
  · intro now o hmode
    cases hdc : st.deviceCodeAuth <;>
      simp [Manager.getAuthStatus, Manager.getTokenInfo, Manager.signOut, hmode,
        hdc, Manager.deviceSignOut, Manager.dcGetAccessToken,
        Manager.cachedTokenUsable, Except.map]
  · intro now msg dcO c hmode hcc
    simp [Manager.getAuthStatus, Manager.getTokenInfo, Manager.signOut, hmode,
      hcc, Manager.ccGetAccessToken, Manager.cachedTokenUsable, Except.map]

/-- Claim C8 amended, instantiated: signing out of a manager holding a
still-valid manual token keeps the mode and makes the next status report
`authenticated: false`. -/
theorem C8_witness :
    manualState.currentMode = Manager.AuthMode.client_token ∧
    (Manager.signOut manualState).currentMode = Manager.AuthMode.client_token ∧
    ((Manager.getAuthStatus (Manager.signOut manualState) 0 idleOracle).map
        fun p => p.1.authenticated) = .ok false :=
  ⟨rfl, (C8_amended manualState).1,
    (C8_amended manualState).2.2.2.2.1 0 idleOracle rfl⟩

/-- Claim C9: in device-code mode, when the cached record is unusable and a
stored account exists, a failing silent acquisition is swallowed —
`getAccessToken` returns null (no error) leaving the state unchanged —
while `initiateDeviceCodeFlow` propagates the same failure as an error. -/
theorem C9_holds (dc : Manager.DeviceCodeState) (now : Int) (e : String)
    (hcache : Manager.cachedTokenUsable dc.cachedToken now = false)
    (hacc : dc.accounts.isEmpty = false) :
    Manager.dcGetAccessToken dc now (.error e) = (none, dc, 1) ∧
    (∀ (st2 : Manager.DeviceCodeState) (now2 : Int),
      Manager.initiateDeviceCodeFlow st2 now2 (.error e) = .error e) := by
  constructor
  · simp [Manager.dcGetAccessToken, hcache, hacc]
  · intro st2 now2
    rfl

/-- Claim C9, instantiated: with one stored account and an empty cache, a
silent failure yields a null token while the interactive initiation path
surfaces the same failure. -/
theorem C9_witness :
    Manager.cachedTokenUsable dcStateW.cachedToken 0 = false ∧
    Manager.dcGetAccessToken dcStateW 0 (.error "silent acquisition failed") =
      (none, dcStateW, 1) ∧
    Manager.initiateDeviceCodeFlow dcStateW 0 (.error "silent acquisition failed") =
      .error "silent acquisition failed" :=
  ⟨rfl,
    (C9_holds dcStateW 0 "silent acquisition failed" rfl rfl).1,
    (C9_holds dcStateW 0 "silent acquisition failed" rfl rfl).2 dcStateW 0⟩

/-- Claim C10: the device-code constructor's scope normalization is
element-wise, preserving order and length: a scope containing `://` is kept
unchanged, any other scope `s` becomes `https://graph.microsoft.com/` ++
`s`. -/
theorem C10_holds (scopes : List String) :
    (Manager.normalizeScopes scopes).length = scopes.length ∧
    (∀ (i : Nat) (h : i < scopes.length) (h2 : i < (Manager.normalizeScopes scopes).length),
      (Manager.normalizeScopes scopes).get ⟨i, h2⟩ =
        if Manager.jsIncludes (scopes.get ⟨i, h⟩) "://" = true then scopes.get ⟨i, h⟩
        else "https://graph.microsoft.com/" ++ scopes.get ⟨i, h⟩) := by
  constructor
  · simp [Manager.normalizeScopes]
  · intro i h h2
    simp [Manager.normalizeScopes, Manager.normalizeScope, List.get_eq_getElem,
      List.getElem_map]

/-- Claim C10, instantiated: a bare permission name is prefixed with the
Graph resource URI while a fully qualified scope is kept unchanged, in
order. -/
theorem C10_witness :
    (Manager.normalizeScopes
        ["User.Read", "https://management.azure.com/.default"]).length = 2 ∧
    (Manager.normalizeScopes
        ["User.Read", "https://management.azure.com/.default"]).get ⟨0, by decide⟩ =
      "https://graph.microsoft.com/User.Read" ∧
    (Manager.normalizeScopes
        ["User.Read", "https://management.azure.com/.default"]).get ⟨1, by decide⟩ =
      "https://management.azure.com/.default" := by
  refine ⟨(C10_holds _).1, ?_, ?_⟩
  · rw [(C10_holds ["User.Read", "https://management.azure.com/.default"]).2 0
      (by decide) (by decide)]
    decide
  · rw [(C10_holds ["User.Read", "https://management.azure.com/.default"]).2 1
      (by decide) (by decide)]
    decide
